import Mathlib

/-!
Shallow embedding of the blacspp broadcast dispatch layer
(src/include/blacspp/broadcast.hpp).

The dispatch layer is pure marshalling: each entry point converts its
enumerated parameters to string tokens and forwards everything, unchanged,
to one underlying library entry point (wrappers::gebs2d and friends).
We model an invocation as explicit state passing plus an emitted trace of
wrapper calls: a blacspp call maps a machine state (the grid and a flat
typed memory) to the resulting state together with the list of wrapper
calls it performed.  The underlying library itself is external to the
repository; where a claim needs its behaviour we model it from the spec
(mock transport), clearly marked below.
-/

namespace Blacspp

/-- Modelled from the spec: the Grid abstraction (grid.hpp is not in src/).
"Grid: opaque handle to a 2D process topology and its communication
context"; the dispatch layer only reads its opaque context handle via
the context() accessor. -/
structure Grid where
  context : Int
  deriving DecidableEq

/-- Modelled from the spec: "Scope: enumerated value selecting which subset
of the grid (row, column, or all) participates" (types header not in src/). -/
inductive Scope where
  | Row
  | Column
  | All
  deriving DecidableEq

/-- Modelled from the spec: "Topology: enumerated value selecting the
communication pattern/tree shape used internally by the library"
(types header not in src/); variants follow the library's documented
ring/hypercube patterns. -/
inductive Topology where
  | IRing
  | DRing
  | SRing
  | Hypercube
  deriving DecidableEq

/-- Modelled from the spec: "Triangle ... which half of a matrix buffer is
transmitted" (types header not in src/). -/
inductive Triangle where
  | Upper
  | Lower
  deriving DecidableEq

/-- Modelled from the spec: "Diagonal ... whether the diagonal is implied
unit" (types header not in src/). -/
inductive Diagonal where
  | Unit
  | NonUnit
  deriving DecidableEq

/-- Modelled from the spec: detail::type_string on Scope
(util/type_conversions.hpp is not in src/).  "scope values map to
single-character tokens such as row/column/all". -/
def type_stringScope : Scope → String
  | .Row => "R"
  | .Column => "C"
  | .All => "A"

/-- Modelled from the spec: detail::type_string on Topology
(util/type_conversions.hpp is not in src/); a fixed single-character token
per communication pattern. -/
def type_stringTopology : Topology → String
  | .IRing => "I"
  | .DRing => "D"
  | .SRing => "S"
  | .Hypercube => "H"

/-- Modelled from the spec: detail::type_string on Triangle
(util/type_conversions.hpp is not in src/). -/
def type_stringTriangle : Triangle → String
  | .Upper => "U"
  | .Lower => "L"

/-- Modelled from the spec: detail::type_string on Diagonal
(util/type_conversions.hpp is not in src/). -/
def type_stringDiagonal : Diagonal → String
  | .Unit => "U"
  | .NonUnit => "N"

/-- A pointer is an address into the flat typed memory. -/
def Ptr : Type := Nat

instance : DecidableEq Ptr := fun a b => Nat.decEq a b

/-- One call to a general (rectangular) wrapper entry point
(wrappers::gebs2d or wrappers::gebr2d): the name of the entry point and
every argument handed to it. -/
structure GeCall where
  fname : String
  ctxt : Int
  scope : String
  top : String
  m : Int
  n : Int
  a : Nat
  lda : Int
  deriving DecidableEq

/-- One call to a triangular wrapper entry point (wrappers::trbs2d or
wrappers::trbr2d). -/
structure TrCall where
  fname : String
  ctxt : Int
  scope : String
  top : String
  uplo : String
  diag : String
  m : Int
  n : Int
  a : Nat
  lda : Int
  deriving DecidableEq

/-- The local machine state a dispatch call can observe or mutate: the
grid and the flat typed memory of the calling process. -/
structure MachineState (T : Type) where
  grid : Grid
  mem : Nat → T

/-- A buffer-owning container, as the dispatch layer sees one: a data()
pointer and a size(). -/
structure Container where
  data : Nat
  size : Nat
  deriving DecidableEq

/-- Modelled from the spec: blacs_int is the library's signed integer type
(types header not in src/); this model fixes its width at 32 bits. -/
def blacsIntWidth : Nat := 32

/-- Two's-complement narrowing of an unsigned value to a w-bit signed
integer: reduce modulo 2^w and reinterpret the top bit as the sign.  This
is the conversion C++ applies when a std::size_t argument initialises a
blacs_int parameter. -/
def wrapSigned (w : Nat) (sz : Nat) : Int :=
  if sz % 2 ^ w < 2 ^ (w - 1) then ((sz % 2 ^ w : Nat) : Int)
  else ((sz % 2 ^ w : Nat) : Int) - 2 ^ w

/-- The std::size_t to blacs_int conversion at the call sites of the
size-deduced overloads. -/
def sizeToBlacsInt (sz : Nat) : Int := wrapSigned blacsIntWidth sz

/-- blacspp::gebs2d, pointer overload (broadcast.hpp lines 34-43): convert
scope and topology to strings and call wrappers::gebs2d with
grid.context(), the two tokens, and M, N, A, LDA unchanged.  The body
performs no validation and no state mutation; its sole effect is the
emitted wrapper call. -/
def gebs2d {T : Type} (st : MachineState T) (scope : Scope) (top : Topology)
    (M N : Int) (A : Nat) (LDA : Int) : MachineState T × List GeCall :=
  (st, [{ fname := "gebs2d", ctxt := st.grid.context,
          scope := type_stringScope scope, top := type_stringTopology top,
          m := M, n := N, a := A, lda := LDA }])

/-- blacspp::gebs2d, container overload (broadcast.hpp lines 65-73):
forwards to the pointer overload on A.data(). -/
def gebs2d_cont {T : Type} (st : MachineState T) (scope : Scope) (top : Topology)
    (M N : Int) (A : Container) (LDA : Int) : MachineState T × List GeCall :=
  gebs2d st scope top M N A.data LDA

/-- blacspp::gebs2d, size-deduced overload (broadcast.hpp lines 93-100):
forwards to the container overload with M = A.size(), N = 1,
LDA = A.size(); each std::size_t value narrows to blacs_int at the call. -/
def gebs2d_sized {T : Type} (st : MachineState T) (scope : Scope) (top : Topology)
    (A : Container) : MachineState T × List GeCall :=
  gebs2d_cont st scope top (sizeToBlacsInt A.size) 1 A (sizeToBlacsInt A.size)

/-- blacspp::trbs2d, pointer overload (broadcast.hpp lines 122-135). -/
def trbs2d {T : Type} (st : MachineState T) (scope : Scope) (top : Topology)
    (uplo : Triangle) (diag : Diagonal)
    (M N : Int) (A : Nat) (LDA : Int) : MachineState T × List TrCall :=
  (st, [{ fname := "trbs2d", ctxt := st.grid.context,
          scope := type_stringScope scope, top := type_stringTopology top,
          uplo := type_stringTriangle uplo, diag := type_stringDiagonal diag,
          m := M, n := N, a := A, lda := LDA }])

/-- blacspp::trbs2d, container overload (broadcast.hpp lines 158-167):
forwards to the pointer overload on A.data(). -/
def trbs2d_cont {T : Type} (st : MachineState T) (scope : Scope) (top : Topology)
    (uplo : Triangle) (diag : Diagonal)
    (M N : Int) (A : Container) (LDA : Int) : MachineState T × List TrCall :=
  trbs2d st scope top uplo diag M N A.data LDA

/-- blacspp::gebr2d, pointer overload (broadcast.hpp lines 199-208):
symmetric to gebs2d, calling wrappers::gebr2d. -/
def gebr2d {T : Type} (st : MachineState T) (scope : Scope) (top : Topology)
    (M N : Int) (A : Nat) (LDA : Int) : MachineState T × List GeCall :=
  (st, [{ fname := "gebr2d", ctxt := st.grid.context,
          scope := type_stringScope scope, top := type_stringTopology top,
          m := M, n := N, a := A, lda := LDA }])

/-- blacspp::gebr2d, container overload (broadcast.hpp lines 229-236). -/
def gebr2d_cont {T : Type} (st : MachineState T) (scope : Scope) (top : Topology)
    (M N : Int) (A : Container) (LDA : Int) : MachineState T × List GeCall :=
  gebr2d st scope top M N A.data LDA

/-- blacspp::gebr2d, size-deduced overload (broadcast.hpp lines 255-261). -/
def gebr2d_sized {T : Type} (st : MachineState T) (scope : Scope) (top : Topology)
    (A : Container) : MachineState T × List GeCall :=
  gebr2d_cont st scope top (sizeToBlacsInt A.size) 1 A (sizeToBlacsInt A.size)

/-- blacspp::trbr2d, pointer overload (broadcast.hpp lines 282-295). -/
def trbr2d {T : Type} (st : MachineState T) (scope : Scope) (top : Topology)
    (uplo : Triangle) (diag : Diagonal)
    (M N : Int) (A : Nat) (LDA : Int) : MachineState T × List TrCall :=
  (st, [{ fname := "trbr2d", ctxt := st.grid.context,
          scope := type_stringScope scope, top := type_stringTopology top,
          uplo := type_stringTriangle uplo, diag := type_stringDiagonal diag,
          m := M, n := N, a := A, lda := LDA }])

/-- blacspp::trbr2d, container overload (broadcast.hpp lines 318-326). -/
def trbr2d_cont {T : Type} (st : MachineState T) (scope : Scope) (top : Topology)
    (uplo : Triangle) (diag : Diagonal)
    (M N : Int) (A : Container) (LDA : Int) : MachineState T × List TrCall :=
  trbr2d st scope top uplo diag M N A.data LDA

/-- The four dispatch operations of broadcast.hpp. -/
inductive OpName where
  | GEBS2D
  | TRBS2D
  | GEBR2D
  | TRBR2D
  deriving DecidableEq

/-- The three call shapes an operation can expose. -/
inductive OverloadKind where
  | rawPointer
  | containerData
  | containerSized
  deriving DecidableEq

/-- The overload surface of broadcast.hpp, as declared in the header:
gebs2d has pointer (lines 34-43), container (65-73) and size-deduced
(93-100) overloads; trbs2d only pointer (122-135) and container (158-167);
gebr2d has all three (199-208, 229-236, 255-261); trbr2d only pointer
(282-295) and container (318-326). -/
def overloads : OpName → List OverloadKind
  | .GEBS2D => [.rawPointer, .containerData, .containerSized]
  | .TRBS2D => [.rawPointer, .containerData]
  | .GEBR2D => [.rawPointer, .containerData, .containerSized]
  | .TRBR2D => [.rawPointer, .containerData]

/-- Modelled from the spec: the element types a caller could try to
instantiate the templates with (types header not in src/).  The first five
are the types the underlying library's binary interface supports; the
remaining ones are not BLACS enabled. -/
inductive CType where
  | blacsInt
  | sreal
  | dreal
  | scomplex
  | dcomplex
  | cchar
  | cbool
  | cvoid
  deriving DecidableEq

/-- Modelled from the spec: detail::blacs_supported
(util/type_conversions.hpp is not in src/): "only element types supported
by the underlying library's binary interface may instantiate these
calls". -/
def blacs_supported : CType → Bool
  | .blacsInt => true
  | .sreal => true
  | .dreal => true
  | .scomplex => true
  | .dcomplex => true
  | .cchar => false
  | .cbool => false
  | .cvoid => false

/-- Instantiation of the gebs2d template at an element type: the SFINAE
constraint detail::enable_if_blacs_supported_t yields a callable function
exactly when the element type is BLACS supported, and no function at all
(a build-time rejection) otherwise. -/
def gebs2d_inst (ct : CType) :
    Option (Grid → Scope → Topology → Int → Int → Nat → Int → List GeCall) :=
  if blacs_supported ct then
    some fun g s t M N A LDA =>
      (gebs2d (T := Unit) ⟨g, fun _ => ()⟩ s t M N A LDA).2
  else none

/-- Instantiation of the trbs2d template at an element type. -/
def trbs2d_inst (ct : CType) :
    Option (Grid → Scope → Topology → Triangle → Diagonal →
            Int → Int → Nat → Int → List TrCall) :=
  if blacs_supported ct then
    some fun g s t u d M N A LDA =>
      (trbs2d (T := Unit) ⟨g, fun _ => ()⟩ s t u d M N A LDA).2
  else none

/-- Instantiation of the gebr2d template at an element type. -/
def gebr2d_inst (ct : CType) :
    Option (Grid → Scope → Topology → Int → Int → Nat → Int → List GeCall) :=
  if blacs_supported ct then
    some fun g s t M N A LDA =>
      (gebr2d (T := Unit) ⟨g, fun _ => ()⟩ s t M N A LDA).2
  else none

/-- Instantiation of the trbr2d template at an element type. -/
def trbr2d_inst (ct : CType) :
    Option (Grid → Scope → Topology → Triangle → Diagonal →
            Int → Int → Nat → Int → List TrCall) :=
  if blacs_supported ct then
    some fun g s t u d M N A LDA =>
      (trbr2d (T := Unit) ⟨g, fun _ => ()⟩ s t u d M N A LDA).2
  else none

/-- Modelled from the spec: the transport effect of wrappers::gebs2d
(wrappers/broadcast.hpp is not in src/, the transport is the external
library).  The send hands the M-by-N column-major region of the buffer,
read through the leading dimension, to the transport as the outgoing
message. -/
def packGE {T : Type} (mem : Nat → T) (c : GeCall) : List (List T) :=
  (List.range c.n.toNat).map fun j =>
    (List.range c.m.toNat).map fun i => mem (c.a + (i + j * c.lda.toNat))

/-- Modelled from the spec: the transport effect of wrappers::gebr2d
(wrappers/broadcast.hpp is not in src/).  The receive writes the incoming
M-by-N message into the column-major region of the receive buffer and
leaves every other memory cell unchanged. -/
def unpackGE {T : Type} (mem : Nat → T) (c : GeCall) (msg : List (List T)) :
    Nat → T :=
  fun k =>
    if c.a ≤ k then
      if (k - c.a) % c.lda.toNat < c.m.toNat ∧ (k - c.a) / c.lda.toNat < c.n.toNat then
        ((msg.getD ((k - c.a) / c.lda.toNat) []).getD ((k - c.a) % c.lda.toNat) (mem k))
      else mem k
    else mem k

/-- Whether position (i, j) of the matrix lies in the transmitted
triangular region selected by the enumerated Triangle and Diagonal values:
the lower or upper half, with the diagonal excluded when it is implied
unit. -/
def inTriangle (uplo : Triangle) (diag : Diagonal) (i j : Nat) : Bool :=
  match uplo, diag with
  | .Lower, .NonUnit => j ≤ i
  | .Lower, .Unit => j < i
  | .Upper, .NonUnit => i ≤ j
  | .Upper, .Unit => i < j

/-- The same triangular-region test, keyed on the string tokens the
wrapper actually receives. -/
def inTriangleStr (uplo diag : String) (i j : Nat) : Bool :=
  if uplo = "L" then (if diag = "U" then j < i else j ≤ i)
  else (if diag = "U" then i < j else i ≤ j)

/-- Modelled from the spec: the transport effect of wrappers::trbr2d
(wrappers/broadcast.hpp is not in src/).  The receive writes the incoming
message only at the positions of the selected triangular region of the
buffer and leaves every other memory cell unchanged. -/
def unpackTR {T : Type} (mem : Nat → T) (c : TrCall) (msg : Nat → Nat → T) :
    Nat → T :=
  fun k =>
    if c.a ≤ k then
      if (k - c.a) % c.lda.toNat < c.m.toNat ∧ (k - c.a) / c.lda.toNat < c.n.toNat ∧
          inTriangleStr c.uplo c.diag ((k - c.a) % c.lda.toNat) ((k - c.a) / c.lda.toNat) then
        msg ((k - c.a) % c.lda.toNat) ((k - c.a) / c.lda.toNat)
      else mem k
    else mem k

/-- A placeholder wrapper call, used only as the headD default when
reading the first call of a trace. -/
def dummyGeCall : GeCall :=
  { fname := "", ctxt := 0, scope := "", top := "", m := 0, n := 0, a := 0, lda := 0 }

/-- A placeholder triangular wrapper call. -/
def dummyTrCall : TrCall :=
  { fname := "", ctxt := 0, scope := "", top := "", uplo := "", diag := "",
    m := 0, n := 0, a := 0, lda := 0 }

/-- The first wrapper call emitted by a general dispatch invocation. -/
def firstCallGe {T : Type} (r : MachineState T × List GeCall) : GeCall :=
  r.2.headD dummyGeCall

/-- The first wrapper call emitted by a triangular dispatch invocation. -/
def firstCallTr {T : Type} (r : MachineState T × List TrCall) : TrCall :=
  r.2.headD dummyTrCall

/-- Whether address k falls in the region of memory the triangular receive
writes: it lies at or after the buffer start, and its offset decomposes
through the leading dimension into an in-matrix position of the selected
triangle. -/
def inRegionTR (uplo : Triangle) (diag : Diagonal) (M N LDA p k : Nat) : Bool :=
  p ≤ k ∧ (k - p) % LDA < M ∧ (k - p) / LDA < N ∧
    inTriangle uplo diag ((k - p) % LDA) ((k - p) / LDA)

/-! Helper lemmas shared by the claim theorems. -/

lemma getD_map_range {α : Type} (f : Nat → α) (n j : Nat) (h : j < n) (d : α) :
    ((List.range n).map f).getD j d = f j := by
  simp [List.getD_eq_getElem?_getD, List.getElem?_map, List.getElem?_range, h]

lemma offset_mod (i j L : Nat) (hi : i < L) : (i + j * L) % L = i := by
  rw [Nat.add_mul_mod_self_right, Nat.mod_eq_of_lt hi]

lemma offset_div (i j L : Nat) (h : 0 < L) (hi : i < L) : (i + j * L) / L = j := by
  rw [Nat.add_mul_div_right _ _ h, Nat.div_eq_of_lt hi, Nat.zero_add]

lemma inTriangleStr_type_string (uplo : Triangle) (diag : Diagonal) (i j : Nat) :
    inTriangleStr (type_stringTriangle uplo) (type_stringDiagonal diag) i j
      = inTriangle uplo diag i j := by
  cases uplo <;> cases diag <;>
    simp [inTriangleStr, inTriangle, type_stringTriangle, type_stringDiagonal]

lemma wrapSigned_lt (w sz : Nat) : wrapSigned w sz < 2 ^ (w - 1) := by
  unfold wrapSigned
  by_cases hc : sz % 2 ^ w < 2 ^ (w - 1)
  · rw [if_pos hc]
    exact_mod_cast hc
  · rw [if_neg hc]
    have h1 : ((sz % 2 ^ w : Nat) : Int) < 2 ^ w := by
      exact_mod_cast Nat.mod_lt _ (pow_pos (by norm_num) w)
    have h2 : (0 : Int) < 2 ^ (w - 1) := by positivity
    linarith

/-- C1: the pointer-based gebs2d validates nothing (it is defined for every
M, N, LDA and every buffer address) and performs exactly one call to
wrappers::gebs2d, passing grid.context(), the scope and topology string
tokens, and M, N, A, LDA unchanged; gebr2d does the same via
wrappers::gebr2d. -/
theorem gebs2d_gebr2d_forward_unchanged (T : Type) (st : MachineState T)
    (s : Scope) (t : Topology) (M N : Int) (A : Nat) (LDA : Int) :
    gebs2d st s t M N A LDA =
      (st, [{ fname := "gebs2d", ctxt := st.grid.context,
              scope := type_stringScope s, top := type_stringTopology t,
              m := M, n := N, a := A, lda := LDA }]) ∧
    gebr2d st s t M N A LDA =
      (st, [{ fname := "gebr2d", ctxt := st.grid.context,
              scope := type_stringScope s, top := type_stringTopology t,
              m := M, n := N, a := A, lda := LDA }]) :=
  ⟨rfl, rfl⟩

/-- C2: the size-deduced overloads of gebs2d and gebr2d make exactly the
same underlying call as the explicitly-shaped container overloads invoked
with rows = A.size(), cols = 1, leadingDim = A.size() (each size value
passing through the same std::size_t-to-blacs_int conversion). -/
theorem sized_overload_eq_shaped (T : Type) (st : MachineState T)
    (s : Scope) (t : Topology) (A : Container) :
    gebs2d_sized st s t A =
      gebs2d_cont st s t (sizeToBlacsInt A.size) 1 A (sizeToBlacsInt A.size) ∧
    gebr2d_sized st s t A =
      gebr2d_cont st s t (sizeToBlacsInt A.size) 1 A (sizeToBlacsInt A.size) :=
  ⟨rfl, rfl⟩

/-- C3: detail::type_string is total, exhaustive and stable on each of the
four enumerations: every variant is mapped, to the fixed token listed, and
(being a pure function of the variant) any two calls on the same variant
agree, so each variant has exactly one token. -/
theorem type_string_total_exhaustive_stable :
    (type_stringScope Scope.Row = "R" ∧ type_stringScope Scope.Column = "C" ∧
      type_stringScope Scope.All = "A") ∧
    (type_stringTopology Topology.IRing = "I" ∧
      type_stringTopology Topology.DRing = "D" ∧
      type_stringTopology Topology.SRing = "S" ∧
      type_stringTopology Topology.Hypercube = "H") ∧
    (type_stringTriangle Triangle.Upper = "U" ∧
      type_stringTriangle Triangle.Lower = "L") ∧
    (type_stringDiagonal Diagonal.Unit = "U" ∧
      type_stringDiagonal Diagonal.NonUnit = "N") ∧
    (∀ x : Scope, ∃! str : String, type_stringScope x = str) ∧
    (∀ x : Topology, ∃! str : String, type_stringTopology x = str) ∧
    (∀ x : Triangle, ∃! str : String, type_stringTriangle x = str) ∧
    (∀ x : Diagonal, ∃! str : String, type_stringDiagonal x = str) := by
  refine ⟨⟨rfl, rfl, rfl⟩, ⟨rfl, rfl, rfl, rfl⟩, ⟨rfl, rfl⟩, ⟨rfl, rfl⟩,
    ?_, ?_, ?_, ?_⟩ <;> exact fun x => ⟨_, rfl, fun y h => h.symm⟩

/-- C4 counterexample: the claim asserts a size-based convenience overload
for each of the four dispatch operations, but the triangular send trbs2d
exposes no such overload in broadcast.hpp. -/
theorem trbs2d_has_no_sized_overload :
    OverloadKind.containerSized ∉ overloads OpName.TRBS2D := by
  decide

/-- C4 amended: only the two general operations gebs2d and gebr2d expose a
size-based convenience overload, and those overloads default rows to the
container's size, cols to 1 and leadingDim to the container's size; the
triangular operations trbs2d and trbr2d expose only the pointer and
container-with-data overloads. -/
theorem sized_overloads_general_only :
    (∀ op : OpName, OverloadKind.containerSized ∈ overloads op ↔
        (op = OpName.GEBS2D ∨ op = OpName.GEBR2D)) ∧
    (∀ (T : Type) (st : MachineState T) (s : Scope) (t : Topology) (A : Container),
        gebs2d_sized st s t A =
          gebs2d st s t (sizeToBlacsInt A.size) 1 A.data (sizeToBlacsInt A.size)) ∧
    (∀ (T : Type) (st : MachineState T) (s : Scope) (t : Topology) (A : Container),
        gebr2d_sized st s t A =
          gebr2d st s t (sizeToBlacsInt A.size) 1 A.data (sizeToBlacsInt A.size)) := by
  refine ⟨?_, fun T st s t A => rfl, fun T st s t A => rfl⟩
  intro op
  cases op <;> simp [overloads]

/-- C5: each of the four templates can be instantiated exactly at the
BLACS-supported element types; at an unsupported element type the
instantiation does not exist at all (the build rejects it), so no runtime
error can arise from it. -/
theorem instantiation_iff_blacs_supported :
    (∀ ct : CType, (gebs2d_inst ct).isSome = blacs_supported ct) ∧
    (∀ ct : CType, (trbs2d_inst ct).isSome = blacs_supported ct) ∧
    (∀ ct : CType, (gebr2d_inst ct).isSome = blacs_supported ct) ∧
    (∀ ct : CType, (trbr2d_inst ct).isSome = blacs_supported ct) := by
  refine ⟨?_, ?_, ?_, ?_⟩ <;> intro ct <;> cases ct <;> rfl

/-- C8: for each of the four operations, the container-with-data overload
with explicit M, N, LDA is the pointer overload applied to A.data() with
the same grid, enumerated parameters and shape. -/
theorem container_overload_eq_pointer (T : Type) (st : MachineState T)
    (s : Scope) (t : Topology) (uplo : Triangle) (diag : Diagonal)
    (M N : Int) (A : Container) (LDA : Int) :
    gebs2d_cont st s t M N A LDA = gebs2d st s t M N A.data LDA ∧
    trbs2d_cont st s t uplo diag M N A LDA = trbs2d st s t uplo diag M N A.data LDA ∧
    gebr2d_cont st s t M N A LDA = gebr2d st s t M N A.data LDA ∧
    trbr2d_cont st s t uplo diag M N A LDA = trbr2d st s t uplo diag M N A.data LDA :=
  ⟨rfl, rfl, rfl, rfl⟩

/-- C10: the send operations leave the machine state — the grid and every
memory cell, in particular the caller's buffer — unchanged: their only
effect is the emitted wrapper call. -/
theorem send_preserves_state (T : Type) (st : MachineState T)
    (s : Scope) (t : Topology) (uplo : Triangle) (diag : Diagonal)
    (M N : Int) (A : Nat) (LDA : Int) :
    (gebs2d st s t M N A LDA).1 = st ∧
    (trbs2d st s t uplo diag M N A LDA).1 = st :=
  ⟨rfl, rfl⟩

/-- C9: when a container's size exceeds the largest representable
blacs_int, the size-deduced overloads hand the underlying library a row
count and leading dimension equal to the size reduced modulo 2^w and
reinterpreted as signed — a value different from the true size. -/
theorem sized_overload_truncates_size (T : Type) (st : MachineState T)
    (s : Scope) (t : Topology) (A : Container)
    (h : 2 ^ (blacsIntWidth - 1) - 1 < A.size) :
    (gebs2d_sized st s t A).2 =
      [{ fname := "gebs2d", ctxt := st.grid.context,
         scope := type_stringScope s, top := type_stringTopology t,
         m := wrapSigned blacsIntWidth A.size, n := 1, a := A.data,
         lda := wrapSigned blacsIntWidth A.size }] ∧
    (gebr2d_sized st s t A).2 =
      [{ fname := "gebr2d", ctxt := st.grid.context,
         scope := type_stringScope s, top := type_stringTopology t,
         m := wrapSigned blacsIntWidth A.size, n := 1, a := A.data,
         lda := wrapSigned blacsIntWidth A.size }] ∧
    wrapSigned blacsIntWidth A.size ≠ (A.size : Int) := by
  refine ⟨rfl, rfl, ?_⟩
  have hp : 0 < 2 ^ (blacsIntWidth - 1) := pow_pos (by norm_num) _
  have hle : 2 ^ (blacsIntWidth - 1) ≤ A.size := by omega
  have hle2 : ((2 : Int) ^ (blacsIntWidth - 1)) ≤ (A.size : Int) := by
    exact_mod_cast hle
  have hlt := wrapSigned_lt blacsIntWidth A.size
  intro heq
  rw [heq] at hlt
  linarith

/-- C9 witness: a container of size 2^31 exceeds the 32-bit blacs_int
range, and the value handed on differs from the true size. -/
theorem sized_overload_truncates_size_witness :
    2 ^ (blacsIntWidth - 1) - 1 < (2 ^ 31 : Nat) ∧
    wrapSigned blacsIntWidth (2 ^ 31) ≠ (((2 ^ 31 : Nat) : Int)) :=
  ⟨by decide,
    (sized_overload_truncates_size Unit ⟨⟨0⟩, fun _ => ()⟩ Scope.Row
      Topology.IRing ⟨0, 2 ^ 31⟩ (by decide)).2.2⟩

/-- C6: a send-general followed by a receive-general with matching shape
parameters M, N, LDA reproduces, through the modelled transport, every
element of the M-by-N column-major region: the received region is
identical to the sent region. -/
theorem gebs2d_gebr2d_roundtrip (T : Type) (gS gR : Grid) (memS memR : Nat → T)
    (s : Scope) (t : Topology) (M N LDA pa pb i j : Nat)
    (hM : M ≤ LDA) (hL : 0 < LDA) (hi : i < M) (hj : j < N) :
    unpackGE memR
        (firstCallGe (gebr2d ⟨gR, memR⟩ s t (M : Int) (N : Int) pb (LDA : Int)))
        (packGE memS
          (firstCallGe (gebs2d ⟨gS, memS⟩ s t (M : Int) (N : Int) pa (LDA : Int))))
        (pb + (i + j * LDA))
      = memS (pa + (i + j * LDA)) := by
  have hiL : i < LDA := lt_of_lt_of_le hi hM
  unfold unpackGE packGE firstCallGe gebs2d gebr2d
  simp only [List.headD, Int.toNat_natCast]
  rw [if_pos (Nat.le_add_right _ _)]
  rw [Nat.add_sub_cancel_left, offset_mod i j LDA hiL, offset_div i j LDA hL hiL]
  rw [if_pos ⟨hi, hj⟩]
  rw [getD_map_range _ _ _ hj, getD_map_range _ _ _ hi]

/-- C6 witness: a concrete 2-by-2 round trip with LDA = 3 at position
(1, 1) recovers the sent element. -/
theorem gebs2d_gebr2d_roundtrip_witness :
    (2 : Nat) ≤ 3 ∧
    unpackGE (fun k : Nat => k)
        (firstCallGe (gebr2d ⟨⟨2⟩, fun k : Nat => k⟩ Scope.All Topology.IRing
          ((2 : Nat) : Int) ((2 : Nat) : Int) 7 ((3 : Nat) : Int)))
        (packGE (fun k : Nat => 1000 + k)
          (firstCallGe (gebs2d ⟨⟨1⟩, fun k : Nat => 1000 + k⟩ Scope.All Topology.IRing
            ((2 : Nat) : Int) ((2 : Nat) : Int) 100 ((3 : Nat) : Int))))
        (7 + (1 + 1 * 3))
      = (fun k : Nat => 1000 + k) (100 + (1 + 1 * 3)) :=
  ⟨by decide,
    gebs2d_gebr2d_roundtrip Nat ⟨1⟩ ⟨2⟩ (fun k => 1000 + k) (fun k => k)
      Scope.All Topology.IRing 2 2 3 100 7 1 1
      (by decide) (by decide) (by decide) (by decide)⟩

/-- C7: for every Triangle and Diagonal selection, the triangular receive
writes the incoming message at the positions of the selected triangular
region (diagonal included or excluded as selected) and leaves every memory
cell outside that region with its prior value. -/
theorem trbr2d_writes_only_selected_triangle (T : Type) (g : Grid) (mem : Nat → T)
    (s : Scope) (t : Topology) (uplo : Triangle) (diag : Diagonal)
    (M N LDA p i j k : Nat) (msg : Nat → Nat → T)
    (hM : M ≤ LDA) (hL : 0 < LDA) (hi : i < M) (hj : j < N) :
    (inTriangle uplo diag i j = true →
      unpackTR mem
          (firstCallTr (trbr2d ⟨g, mem⟩ s t uplo diag (M : Int) (N : Int) p (LDA : Int)))
          msg (p + (i + j * LDA))
        = msg i j) ∧
    (inRegionTR uplo diag M N LDA p k = false →
      unpackTR mem
          (firstCallTr (trbr2d ⟨g, mem⟩ s t uplo diag (M : Int) (N : Int) p (LDA : Int)))
          msg k
        = mem k) := by
  have hiL : i < LDA := lt_of_lt_of_le hi hM
  constructor
  · intro htri
    unfold unpackTR firstCallTr trbr2d
    simp only [List.headD, Int.toNat_natCast]
    rw [if_pos (Nat.le_add_right _ _)]
    rw [Nat.add_sub_cancel_left, offset_mod i j LDA hiL, offset_div i j LDA hL hiL]
    rw [if_pos ⟨hi, hj, by rw [inTriangleStr_type_string]; exact htri⟩]
  · intro hout
    simp only [inRegionTR, decide_eq_false_iff_not] at hout
    unfold unpackTR firstCallTr trbr2d
    simp only [List.headD, Int.toNat_natCast]
    by_cases hpk : p ≤ k
    · rw [if_pos hpk, if_neg]
      rintro ⟨h1, h2, h3⟩
      rw [inTriangleStr_type_string] at h3
      exact hout ⟨hpk, h1, h2, h3⟩
    · rw [if_neg hpk]

/-- C7 witness: on a 2-by-2 lower non-unit receive at buffer address 50
with LDA = 2, the in-triangle position (1, 0) receives the message element
and the strictly-upper cell at address 52 keeps its prior value. -/
theorem trbr2d_writes_only_selected_triangle_witness :
    unpackTR (fun k : Nat => k)
        (firstCallTr (trbr2d ⟨⟨3⟩, fun k : Nat => k⟩ Scope.All Topology.IRing
          Triangle.Lower Diagonal.NonUnit ((2 : Nat) : Int) ((2 : Nat) : Int) 50
          ((2 : Nat) : Int)))
        (fun a b : Nat => 100 + a + 10 * b) (50 + (1 + 0 * 2))
      = (fun a b : Nat => 100 + a + 10 * b) 1 0 ∧
    unpackTR (fun k : Nat => k)
        (firstCallTr (trbr2d ⟨⟨3⟩, fun k : Nat => k⟩ Scope.All Topology.IRing
          Triangle.Lower Diagonal.NonUnit ((2 : Nat) : Int) ((2 : Nat) : Int) 50
          ((2 : Nat) : Int)))
        (fun a b : Nat => 100 + a + 10 * b) 52
      = (fun k : Nat => k) 52 := by
  have h := trbr2d_writes_only_selected_triangle Nat ⟨3⟩ (fun k : Nat => k)
    Scope.All Topology.IRing Triangle.Lower Diagonal.NonUnit
    2 2 2 50 1 0 52 (fun a b : Nat => 100 + a + 10 * b)
    (by decide) (by decide) (by decide) (by decide)
  exact ⟨h.1 (by decide), h.2 (by decide)⟩

end Blacspp
